import Mathlib

/-!
Verification of the tokenbridge gas-price resolution service and of the
manual-execution button.

The gas-price service (`oracle/src/services/gasPrice.js`) is exercised by
`oracle/test/gasPrice.test.js`; the service module itself is not among the
sources, so its operations are modelled from the specification, constrained
by the behaviour the test file pins down.  The manual-execution button is
embedded from `alm/src/components/ManualExecutionButton.tsx`.

Numeric values that JavaScript holds as numbers are modelled as rationals;
chain-native (wei) encodings are the decimal string of an integer, and
fallible asynchronous calls are modelled as `Except` values.
-/

namespace TokenBridge

/-- Shape of `GAS_PRICE_BOUNDARIES` from `oracle/src/utils/constants.js`:
a static MIN/MAX pair in the human-scaled (gwei) unit. -/
structure GasPriceBoundaries where
  MIN : ℚ
  MAX : ℚ

/-- Modelled from the spec: the `GAS_PRICE_BOUNDARIES` constant (the
constants module is missing from the sources).  The test file fixes
MIN = 1 and MAX = 250: 0.5 clamps up to MIN, 260 clamps down to MAX, and
1, 10, 250 pass through unchanged. -/
def GAS_PRICE_BOUNDARIES : GasPriceBoundaries := { MIN := 1, MAX := 250 }

/-- Modelled from the spec: `gasPriceWithinLimits(gasPrice)` of
`oracle/src/services/gasPrice.js` (missing from the sources).  Returns the
value unchanged when it lies in [MIN, MAX], MIN below the range and MAX
above it. -/
def gasPriceWithinLimits (gasPrice : ℚ) : ℚ :=
  if gasPrice < GAS_PRICE_BOUNDARIES.MIN then GAS_PRICE_BOUNDARIES.MIN
  else if gasPrice > GAS_PRICE_BOUNDARIES.MAX then GAS_PRICE_BOUNDARIES.MAX
  else gasPrice

/-- `Web3Utils.toWei(v, 'gwei')`: conversion of a human-scaled (gwei)
decimal value to the chain's smallest fee unit, string-encoded; one gwei is
10^9 wei. -/
def toWeiGwei (v : ℚ) : String :=
  toString (Rat.floor (v * 1000000000))

/-- Modelled from the spec: `normalizeGasPrice(oracleGasPrice, factor)` of
`oracle/src/services/gasPrice.js` (missing from the sources).  Multiplies
the oracle value by the factor, clamps the product in the human-scaled
unit via `gasPriceWithinLimits`, then converts the clamped value to wei. -/
def normalizeGasPrice (oracleGasPrice factor : ℚ) : String :=
  toWeiGwei (gasPriceWithinLimits (oracleGasPrice * factor))

/-- The speed table produced by one oracle fetch: named tiers mapping to
human-scaled decimal prices, plus ancillary metadata (cf. the
`oracleMockResponse` object of the test file). -/
structure SpeedTable where
  tiers : List (String × ℚ)
  block_time : ℚ
  block_number : ℕ
  health : Bool

/-- Key access `speeds[name]` on the tier part of a speed table. -/
def SpeedTable.lookup (speeds : SpeedTable) (name : String) : Option ℚ :=
  speeds.tiers.lookup name

/-- The resolved value of `oracleFn()`: a pre-computed gas price together
with the full oracle response (cf. `oracleFnMock` of the test file). -/
structure OracleResult where
  oracleGasPrice : String
  oracleResponse : SpeedTable

/-- The result object of `fetchGasPrice`: both fields are null when the
corresponding source produced nothing. -/
structure FetchResult where
  gasPrice : Option String
  oracleGasPriceSpeeds : Option SpeedTable

/-- External calls `fetchGasPrice` can make, logged in order. -/
inductive CallEvent where
  | oracleCall
  | contractCall
deriving DecidableEq

/-- Modelled from the spec: `fetchGasPrice({ bridgeContract, oracleFn })`
of `oracle/src/services/gasPrice.js` (missing from the sources).  The
oracle call is attempted first; only if it rejects is the bridge
contract's `gasPrice().call()` getter attempted; a second failure yields
nulls.  Each argument stands for the outcome the corresponding external
call would produce; the second component of the result logs the calls
actually made, in order. -/
def fetchGasPrice (oracleFn : Except String OracleResult)
    (bridgeContractGasPriceCall : Except String String) :
    FetchResult × List CallEvent :=
  match oracleFn with
  | Except.ok r =>
    ({ gasPrice := some r.oracleGasPrice, oracleGasPriceSpeeds := some r.oracleResponse },
      [CallEvent.oracleCall])
  | Except.error _ =>
    match bridgeContractGasPriceCall with
    | Except.ok v =>
      ({ gasPrice := some v, oracleGasPriceSpeeds := none },
        [CallEvent.oracleCall, CallEvent.contractCall])
    | Except.error _ =>
      ({ gasPrice := none, oracleGasPriceSpeeds := none },
        [CallEvent.oracleCall, CallEvent.contractCall])

/-- The per-call option descriptor, a tagged variant: absent/empty, a
fixed chain-native value (`GAS_PRICE_OPTIONS.GAS_PRICE`), or a named
oracle speed tier (`GAS_PRICE_OPTIONS.SPEED`). -/
inductive GasPriceOption where
  | absent
  | fixed (value : String)
  | speed (tier : String)

/-- Modelled from the spec: `processGasPriceOptions({ options,
cachedGasPrice, cachedGasPriceOracleSpeeds })` of
`oracle/src/services/gasPrice.js` (missing from the sources).  No option
or an unknown speed tier yields the cached price; a fixed option is
returned verbatim; a known speed tier is normalized with the chain side's
factor. -/
def processGasPriceOptions (options : GasPriceOption) (cachedGasPrice : String)
    (cachedGasPriceOracleSpeeds : Option SpeedTable) (factor : ℚ) : String :=
  match options with
  | GasPriceOption.absent => cachedGasPrice
  | GasPriceOption.fixed value => value
  | GasPriceOption.speed tier =>
    match cachedGasPriceOracleSpeeds with
    | none => cachedGasPrice
    | some speeds =>
      match speeds.lookup tier with
      | some tierValue => normalizeGasPrice tierValue factor
      | none => cachedGasPrice

/-- Modelled from the spec: `DEFAULT_UPDATE_INTERVAL` of
`oracle/src/utils/constants.js` (missing from the sources); the claims
only need it to be one fixed documented default, in milliseconds. -/
def DEFAULT_UPDATE_INTERVAL : ℕ := 600000

/-- The schedule produced by `setIntervalAndRun`: the repeat interval and
whether the first run happens immediately. -/
structure Schedule where
  intervalMs : ℕ
  runsImmediately : Bool

/-- Modelled from the spec: `setIntervalAndRun(fn, interval)` of
`oracle/src/utils/utils.js` (missing from the sources) runs the function
immediately and then repeatedly on the fixed interval. -/
def setIntervalAndRun (intervalMs : ℕ) : Schedule :=
  { intervalMs := intervalMs, runsImmediately := true }

/-- The two monitored chain sides. -/
inductive ChainSide where
  | home
  | foreign

/-- Modelled from the spec: the numeric test on environment-style
configuration values — a non-empty all-digit string denotes a natural
number of milliseconds; anything else is non-numeric. -/
def decimalNat? (s : String) : Option ℕ :=
  if !s.data.isEmpty && s.data.all Char.isDigit then
    some (s.data.foldl (fun n c => 10 * n + (c.toNat - 48)) 0)
  else none

/-- Modelled from the spec: the interval resolution inside `start`: the
side's `*_GAS_PRICE_UPDATE_INTERVAL` environment value when present and
numeric, the documented default otherwise. -/
def updateIntervalFor (envValue : Option String) : ℕ :=
  match envValue with
  | some s =>
    match decimalNat? s with
    | some n => n
    | none => DEFAULT_UPDATE_INTERVAL
  | none => DEFAULT_UPDATE_INTERVAL

/-- Modelled from the spec: `start(chainSide)` of
`oracle/src/services/gasPrice.js` (missing from the sources).  Reads the
chain side's update-interval configuration and schedules the resolution
cycle via `setIntervalAndRun`.  The environment is passed as a map from
chain side to the configured raw value. -/
def start (side : ChainSide) (env : ChainSide → Option String) : Schedule :=
  setIntervalAndRun (updateIntervalFor (env side))

/-- A home-side confirmation as consumed by `ManualExecutionButton.tsx`:
only its `signature` field matters here; a missing signature is `none`. -/
structure Confirmation where
  signature : Option String

/-- The signature test of `ManualExecutionButton.tsx`:
`signature && signature.startsWith('0x')` — a missing or empty signature
is falsy; otherwise the string must start with "0x". -/
def sigOk : Option String → Bool
  | none => false
  | some signature => !(signature == "") && signature.startsWith "0x"

/-- `disabled` of `ManualExecutionButton.tsx` (lines 32-33): the Execute
button is disabled when fewer than `requiredSignatures` confirmations
carry a usable signature. -/
def disabled (confirmations : List Confirmation) (requiredSignatures : ℕ) : Bool :=
  (confirmations.filter (fun c => sigOk c.signature)).length < requiredSignatures

/-- `collectedSignatures` of `ManualExecutionButton.tsx` (lines 63-65):
map each confirmation to its (possibly missing) signature, then keep the
truthy ones starting with "0x".  The missing case (`confirmation.signature!`
evaluating to undefined) is falsy exactly like the empty string. -/
def collectedSignatures (confirmations : List Confirmation) : List String :=
  (confirmations.map (fun confirmation => confirmation.signature.getD "")).filter
    (fun signature => !(signature == "") && signature.startsWith "0x")

/-- The oracle response object used throughout the test file. -/
def oracleMockResponse : SpeedTable :=
  { tiers := [("fast", 17.64), ("standard", 10.64), ("instant", 51.9), ("slow", 4.4)]
    block_time := 13.548
    block_number := 6704240
    health := true }

/-- The value produced by `oracleFnMock` in the first `fetchGasPrice`
test: a pre-computed price of "1" alongside the full mock response. -/
def mockOracleResult : OracleResult :=
  { oracleGasPrice := "1", oracleResponse := oracleMockResponse }

/-- C1: for every behaviour of the oracle function and the bridge
contract, `fetchGasPrice` never throws (it is a total function) and
returns exactly one of three outcomes: the oracle-derived price with the
full speed table on oracle success; the contract's price with a null
speed table when the oracle fails but the contract succeeds; nulls when
both fail. -/
theorem fetchGasPrice_fallback (oracleFn : Except String OracleResult)
    (call : Except String String) :
    (∀ r, oracleFn = Except.ok r →
      (fetchGasPrice oracleFn call).1 =
        { gasPrice := some r.oracleGasPrice, oracleGasPriceSpeeds := some r.oracleResponse }) ∧
    (∀ e v, oracleFn = Except.error e → call = Except.ok v →
      (fetchGasPrice oracleFn call).1 = { gasPrice := some v, oracleGasPriceSpeeds := none }) ∧
    (∀ e e₂, oracleFn = Except.error e → call = Except.error e₂ →
      (fetchGasPrice oracleFn call).1 = { gasPrice := none, oracleGasPriceSpeeds := none }) := by
  refine ⟨?_, ?_, ?_⟩
  · rintro r rfl
    rfl
  · rintro e v rfl rfl
    rfl
  · rintro e e₂ rfl rfl
    rfl

/-- C1 witness: the three outcomes at the concrete inputs of the test
file (oracle price "1", contract price "2"). -/
theorem fetchGasPrice_fallback_w :
    (fetchGasPrice (Except.ok mockOracleResult) (Except.ok "2")).1 =
      { gasPrice := some "1", oracleGasPriceSpeeds := some oracleMockResponse } ∧
    (fetchGasPrice (Except.error "oracle failed") (Except.ok "2")).1 =
      { gasPrice := some "2", oracleGasPriceSpeeds := none } ∧
    (fetchGasPrice (Except.error "oracle failed") (Except.error "contract failed")).1 =
      { gasPrice := none, oracleGasPriceSpeeds := none } :=
  ⟨(fetchGasPrice_fallback (Except.ok mockOracleResult) (Except.ok "2")).1
      mockOracleResult rfl,
   (fetchGasPrice_fallback (Except.error "oracle failed") (Except.ok "2")).2.1
      "oracle failed" "2" rfl rfl,
   (fetchGasPrice_fallback (Except.error "oracle failed") (Except.error "contract failed")).2.2
      "oracle failed" "contract failed" rfl rfl⟩

/-- C4: `gasPriceWithinLimits` returns its argument unchanged inside
[MIN, MAX], MIN below the range, and MAX above it; it is a total pure
function. -/
theorem gasPriceWithinLimits_clamps (v : ℚ) :
    (GAS_PRICE_BOUNDARIES.MIN ≤ v ∧ v ≤ GAS_PRICE_BOUNDARIES.MAX →
      gasPriceWithinLimits v = v) ∧
    (v < GAS_PRICE_BOUNDARIES.MIN → gasPriceWithinLimits v = GAS_PRICE_BOUNDARIES.MIN) ∧
    (GAS_PRICE_BOUNDARIES.MAX < v → gasPriceWithinLimits v = GAS_PRICE_BOUNDARIES.MAX) := by
  have hb : GAS_PRICE_BOUNDARIES.MIN ≤ GAS_PRICE_BOUNDARIES.MAX := by decide
  unfold gasPriceWithinLimits
  refine ⟨?_, ?_, ?_⟩
  · rintro ⟨hmin, hmax⟩
    split_ifs with h₁ h₂
    · linarith
    · linarith
    · rfl
  · intro h
    split_ifs
    rfl
  · intro h
    split_ifs with h₁
    · linarith
    · rfl

/-- C4 witness: 10 lies within the boundaries and passes through; 0 clamps
up to MIN; 260 clamps down to MAX. -/
theorem gasPriceWithinLimits_clamps_w :
    (GAS_PRICE_BOUNDARIES.MIN ≤ (10 : ℚ) ∧ (10 : ℚ) ≤ GAS_PRICE_BOUNDARIES.MAX) ∧
    gasPriceWithinLimits 10 = 10 ∧
    gasPriceWithinLimits 0 = GAS_PRICE_BOUNDARIES.MIN ∧
    gasPriceWithinLimits 260 = GAS_PRICE_BOUNDARIES.MAX :=
  ⟨⟨by decide, by decide⟩,
   (gasPriceWithinLimits_clamps 10).1 ⟨by decide, by decide⟩,
   (gasPriceWithinLimits_clamps 0).2.1 (by decide),
   (gasPriceWithinLimits_clamps 260).2.2 (by decide)⟩

/-- C3: for every finite non-negative oracle value and positive factor,
`normalizeGasPrice` is total (never throws) and equals the wei encoding of
the clamped product; a product above MAX yields the wei encoding of MAX, a
product below MIN the wei encoding of MIN; and the two reference
evaluations of the spec agree on "20000000000". -/
theorem normalizeGasPrice_spec (v f : ℚ) (hv : 0 ≤ v) (hf : 0 < f) :
    normalizeGasPrice v f = toWeiGwei (gasPriceWithinLimits (v * f)) ∧
    (GAS_PRICE_BOUNDARIES.MAX < v * f →
      normalizeGasPrice v f = toWeiGwei GAS_PRICE_BOUNDARIES.MAX) ∧
    (v * f < GAS_PRICE_BOUNDARIES.MIN →
      normalizeGasPrice v f = toWeiGwei GAS_PRICE_BOUNDARIES.MIN) ∧
    normalizeGasPrice 20 1 = "20000000000" ∧
    normalizeGasPrice 200 (1 / 10) = "20000000000" := by
  have hb : GAS_PRICE_BOUNDARIES.MIN ≤ GAS_PRICE_BOUNDARIES.MAX := by decide
  refine ⟨rfl, ?_, ?_, ?_, ?_⟩
  · intro h
    unfold normalizeGasPrice gasPriceWithinLimits
    split_ifs with h₁
    · linarith
    · rfl
  · intro h
    unfold normalizeGasPrice gasPriceWithinLimits
    split_ifs
    rfl
  · unfold normalizeGasPrice toWeiGwei gasPriceWithinLimits
    norm_num
    decide
  · unfold normalizeGasPrice toWeiGwei gasPriceWithinLimits
    norm_num
    decide

/-- C3 witness: at oracle value 20 and factor 1 the hypotheses hold and
the wei encoding is "20000000000". -/
theorem normalizeGasPrice_spec_w :
    (0 : ℚ) ≤ 20 ∧ (0 : ℚ) < 1 ∧ normalizeGasPrice 20 1 = "20000000000" :=
  ⟨by decide, by decide, (normalizeGasPrice_spec 20 1 (by decide) (by decide)).2.2.2.1⟩

/-- C2: `processGasPriceOptions` returns the cached price when no option
is given; a FIXED option's value verbatim; the normalized value of a named
tier found in the cached speed table; and the cached price again when the
tier is unknown or the cached speed table is unavailable. -/
theorem processGasPriceOptions_spec (cached : String) (speeds : Option SpeedTable)
    (factor : ℚ) :
    processGasPriceOptions GasPriceOption.absent cached speeds factor = cached ∧
    (∀ v, processGasPriceOptions (GasPriceOption.fixed v) cached speeds factor = v) ∧
    (∀ tier tbl q, speeds = some tbl → SpeedTable.lookup tbl tier = some q →
      processGasPriceOptions (GasPriceOption.speed tier) cached speeds factor =
        normalizeGasPrice q factor) ∧
    (∀ tier tbl, speeds = some tbl → SpeedTable.lookup tbl tier = none →
      processGasPriceOptions (GasPriceOption.speed tier) cached speeds factor = cached) ∧
    (∀ tier, speeds = none →
      processGasPriceOptions (GasPriceOption.speed tier) cached speeds factor = cached) := by
  refine ⟨rfl, fun v => rfl, ?_, ?_, ?_⟩
  · rintro tier tbl q rfl hq
    show (match SpeedTable.lookup tbl tier with
      | some tierValue => normalizeGasPrice tierValue factor
      | none => cached) = normalizeGasPrice q factor
    rw [hq]
  · rintro tier tbl rfl hq
    show (match SpeedTable.lookup tbl tier with
      | some tierValue => normalizeGasPrice tierValue factor
      | none => cached) = cached
    rw [hq]
  · rintro tier rfl
    rfl

/-- C2 witness: with the test's cached state, no option yields the cached
"1000000000", and the "standard" speed option yields the normalized
standard tier (10.64 gwei). -/
theorem processGasPriceOptions_spec_w :
    SpeedTable.lookup oracleMockResponse "standard" = some 10.64 ∧
    processGasPriceOptions GasPriceOption.absent "1000000000"
      (some oracleMockResponse) 1 = "1000000000" ∧
    processGasPriceOptions (GasPriceOption.speed "standard") "1000000000"
      (some oracleMockResponse) 1 = normalizeGasPrice 10.64 1 :=
  ⟨rfl,
   (processGasPriceOptions_spec "1000000000" (some oracleMockResponse) 1).1,
   (processGasPriceOptions_spec "1000000000" (some oracleMockResponse) 1).2.2.1
      "standard" oracleMockResponse 10.64 rfl rfl⟩

/-- C5 counterexample: at the test's own input the oracle call succeeds
with the pre-computed price "1" while the speed table's "standard" tier is
10.64, whose normalization (factor 1) is "10640000000"; `fetchGasPrice`
returns "1", not the normalized standard-tier value, so it does not itself
select and normalize the default tier. -/
theorem fetchGasPrice_precomputed_cex :
    SpeedTable.lookup oracleMockResponse "standard" = some 10.64 ∧
    normalizeGasPrice 10.64 1 = "10640000000" ∧
    (fetchGasPrice (Except.ok mockOracleResult) (Except.ok "2")).1.gasPrice = some "1" ∧
    (fetchGasPrice (Except.ok mockOracleResult) (Except.ok "2")).1.gasPrice ≠
      some (normalizeGasPrice 10.64 1) := by
  have hn : normalizeGasPrice 10.64 1 = "10640000000" := by
    unfold normalizeGasPrice toWeiGwei gasPriceWithinLimits
    norm_num [GAS_PRICE_BOUNDARIES]
    decide
  refine ⟨rfl, hn, rfl, ?_⟩
  rw [hn]
  decide

/-- C5 (amended): whenever the oracle fetch succeeds, `fetchGasPrice`
returns as gasPrice the `oracleGasPrice` value the oracle function itself
computed (tier selection and normalization are the oracle function's job),
passed through unchanged. -/
theorem fetchGasPrice_oracle_passthrough (oracleFn : Except String OracleResult)
    (call : Except String String) (r : OracleResult) (h : oracleFn = Except.ok r) :
    (fetchGasPrice oracleFn call).1.gasPrice = some r.oracleGasPrice := by
  subst h
  rfl

/-- C5 witness: the oracle result of the test, whose pre-computed price
"1" is passed through. -/
theorem fetchGasPrice_oracle_passthrough_w :
    (fetchGasPrice (Except.ok mockOracleResult) (Except.ok "2")).1.gasPrice = some "1" :=
  fetchGasPrice_oracle_passthrough (Except.ok mockOracleResult) (Except.ok "2")
    mockOracleResult rfl

/-- C6: the call log of `fetchGasPrice` shows the two sources are strictly
sequential: on oracle success only the oracle is called (the contract
getter is never invoked); the contract is called exactly when the oracle
has failed, and then only after the oracle call. -/
theorem fetchGasPrice_sequential (oracleFn : Except String OracleResult)
    (call : Except String String) :
    (∀ r, oracleFn = Except.ok r →
      (fetchGasPrice oracleFn call).2 = [CallEvent.oracleCall]) ∧
    (∀ e, oracleFn = Except.error e →
      (fetchGasPrice oracleFn call).2 = [CallEvent.oracleCall, CallEvent.contractCall]) ∧
    (CallEvent.contractCall ∈ (fetchGasPrice oracleFn call).2 →
      ∃ e, oracleFn = Except.error e) := by
  refine ⟨?_, ?_, ?_⟩
  · rintro r rfl
    rfl
  · rintro e rfl
    cases call <;> rfl
  · cases oracleFn with
    | ok r =>
      intro hmem
      simp [fetchGasPrice] at hmem
    | error e =>
      intro hmem
      exact ⟨e, rfl⟩

/-- C6 witness: on the test's successful oracle call only the oracle is
invoked; on the failing one the contract call follows the oracle call. -/
theorem fetchGasPrice_sequential_w :
    (fetchGasPrice (Except.ok mockOracleResult) (Except.ok "2")).2 =
      [CallEvent.oracleCall] ∧
    (fetchGasPrice (Except.error "oracle failed") (Except.ok "2")).2 =
      [CallEvent.oracleCall, CallEvent.contractCall] :=
  ⟨(fetchGasPrice_sequential (Except.ok mockOracleResult) (Except.ok "2")).1
      mockOracleResult rfl,
   (fetchGasPrice_sequential (Except.error "oracle failed") (Except.ok "2")).2.1
      "oracle failed" rfl⟩

/-- C7 counterexample: a FIXED option with the non-numeric value
"not-a-number" is returned verbatim, not replaced by the cached gas price
"1000000000", so the claim that it degrades to the cached value is false. -/
theorem processGasPriceOptions_fixed_cex :
    decimalNat? "not-a-number" = none ∧
    processGasPriceOptions (GasPriceOption.fixed "not-a-number") "1000000000"
      (some oracleMockResponse) 1 = "not-a-number" ∧
    "not-a-number" ≠ "1000000000" :=
  ⟨by decide, rfl, by decide⟩

/-- C7 (amended): a FIXED option whose value is non-numeric is never
surfaced as an error; its value is returned verbatim, with no numeric
validation and no substitution of the cached gas price (only unknown SPEED
selections degrade to the cached value). -/
theorem processGasPriceOptions_fixed_verbatim (cached : String)
    (speeds : Option SpeedTable) (factor : ℚ) (v : String)
    (hv : decimalNat? v = none) :
    processGasPriceOptions (GasPriceOption.fixed v) cached speeds factor = v :=
  rfl

/-- C7 witness: the non-numeric fixed value "not-a-number" comes back
verbatim. -/
theorem processGasPriceOptions_fixed_verbatim_w :
    decimalNat? "not-a-number" = none ∧
    processGasPriceOptions (GasPriceOption.fixed "not-a-number") "1000000000"
      (some oracleMockResponse) 1 = "not-a-number" :=
  ⟨by decide,
   processGasPriceOptions_fixed_verbatim "1000000000" (some oracleMockResponse) 1
      "not-a-number" (by decide)⟩

/-- C8: `start` schedules the cycle with the chain side's configured
interval when present and numeric, with `DEFAULT_UPDATE_INTERVAL` when it
is absent or non-numeric, and the first cycle runs immediately. -/
theorem start_spec (side : ChainSide) (env : ChainSide → Option String) :
    (∀ s n, env side = some s → decimalNat? s = some n →
      (start side env).intervalMs = n) ∧
    (env side = none → (start side env).intervalMs = DEFAULT_UPDATE_INTERVAL) ∧
    (∀ s, env side = some s → decimalNat? s = none →
      (start side env).intervalMs = DEFAULT_UPDATE_INTERVAL) ∧
    (start side env).runsImmediately = true := by
  refine ⟨?_, ?_, ?_, rfl⟩
  · intro s n hs hn
    unfold start setIntervalAndRun updateIntervalFor
    rw [hs]
    show (match decimalNat? s with
      | some n => n
      | none => DEFAULT_UPDATE_INTERVAL) = n
    rw [hn]
  · intro hs
    unfold start setIntervalAndRun updateIntervalFor
    rw [hs]
  · intro s hs hn
    unfold start setIntervalAndRun updateIntervalFor
    rw [hs]
    show (match decimalNat? s with
      | some n => n
      | none => DEFAULT_UPDATE_INTERVAL) = DEFAULT_UPDATE_INTERVAL
    rw [hn]

/-- C8 witness: the home side with a configured "15000" schedules at
15000 ms; the foreign side with nothing configured schedules at the
default; both run immediately. -/
theorem start_spec_w :
    (start ChainSide.home (fun _ => some "15000")).intervalMs = 15000 ∧
    (start ChainSide.foreign (fun _ => none)).intervalMs = DEFAULT_UPDATE_INTERVAL ∧
    (start ChainSide.home (fun _ => some "15000")).runsImmediately = true :=
  ⟨(start_spec ChainSide.home (fun _ => some "15000")).1 "15000" 15000 rfl (by decide),
   (start_spec ChainSide.foreign (fun _ => none)).2.1 rfl,
   (start_spec ChainSide.home (fun _ => some "15000")).2.2.2⟩

/-- C9: on oracle success the `oracleGasPriceSpeeds` field of the result
is the oracle function's speed table itself, unchanged — not filtered or
otherwise transformed (object identity in the JavaScript heap is modelled
as equality of the embedded value). -/
theorem fetchGasPrice_speeds_passthrough (oracleFn : Except String OracleResult)
    (call : Except String String) (r : OracleResult) (h : oracleFn = Except.ok r) :
    (fetchGasPrice oracleFn call).1.oracleGasPriceSpeeds = some r.oracleResponse := by
  subst h
  rfl

/-- C9 witness: the mock oracle response of the test comes back as the
speed table, untouched. -/
theorem fetchGasPrice_speeds_passthrough_w :
    (fetchGasPrice (Except.ok mockOracleResult) (Except.ok "2")).1.oracleGasPriceSpeeds =
      some oracleMockResponse :=
  fetchGasPrice_speeds_passthrough (Except.ok mockOracleResult) (Except.ok "2")
    mockOracleResult rfl

/-- The map-then-filter of `collectedSignatures` keeps exactly the
confirmations whose signature passes `sigOk`. -/
theorem collectedSignatures_eq_filter (confirmations : List Confirmation) :
    collectedSignatures confirmations =
      (confirmations.filter (fun c => sigOk c.signature)).map
        (fun c => c.signature.getD "") := by
  induction confirmations with
  | nil => rfl
  | cons c cs ih =>
    unfold collectedSignatures at ih ⊢
    rw [List.map_cons, List.filter_cons, List.filter_cons]
    cases hc : c.signature with
    | none =>
      simp only [hc, Option.getD_none, sigOk]
      simpa using ih
    | some s =>
      simp only [hc, Option.getD_some, sigOk]
      by_cases hp : (!(s == "") && s.startsWith "0x") = true
      · simp only [hp, if_true, List.map_cons, Option.getD_some, hc]
        exact congrArg (s :: ·) ih
      · simp only [Bool.not_eq_true] at hp
        simp only [hp, Bool.false_eq_true, if_false]
        exact ih

/-- C10: the Execute button is disabled exactly when fewer than
`requiredSignatures` confirmations carry a non-empty signature starting
with "0x", and the signature list packed into the submitted transaction
data consists of precisely the signatures passing that same filter — a
confirmation without such a signature contributes nothing. -/
theorem manualExecution_filter (confirmations : List Confirmation)
    (requiredSignatures : ℕ) :
    (disabled confirmations requiredSignatures = true ↔
      confirmations.countP (fun c => sigOk c.signature) < requiredSignatures) ∧
    collectedSignatures confirmations =
      (confirmations.filter (fun c => sigOk c.signature)).map
        (fun c => c.signature.getD "") := by
  refine ⟨?_, collectedSignatures_eq_filter confirmations⟩
  unfold disabled
  rw [List.countP_eq_length_filter]
  exact decide_eq_true_iff

end TokenBridge
